import Mathlib

set_option autoImplicit false

/-!
Shallow embedding of `src/examples/python_client.py` (class `SteamMarketApiClient`)
from the Steam-Market-REST-API-server repository.

Modelling conventions:
* Python dictionaries parsed from JSON become the inductive `Json` below; a JSON
  object is an association list of key/value pairs in insertion order.
* The HTTP stack (`requests.get`, `Response.raise_for_status`, `Response.json`) is
  modelled by an oracle `Transport` mapping the issued GET request to either a raised
  `requests.exceptions.RequestException` or a final HTTP response.  A response carries
  its status code and the decode outcome of its body text (`some j` when the body is
  valid JSON parsing to `j`, `none` when `Response.json()` would raise a decode error);
  the body text itself is irrelevant to the client beyond this outcome.  `resp` is the
  final response delivered by `requests.get` after the internal redirect handling of the requests library; any
  status code can occur here (e.g. 304, or a 3xx without Location).
* Python exceptions are an explicit `Except PyExn` effect.  Per the `requests`
  library (≥ 2.27), `Response.raise_for_status` raises `HTTPError` only for status
  codes 400–599, and `Response.json()` raises `requests.exceptions.JSONDecodeError`,
  which is a subclass of `RequestException`; both are therefore modelled as
  `PyExn.requestException`, the class caught by the `except` clause in
  `_make_request`.  The exact human-readable message text of a library exception is
  library-defined; it is modelled by a fixed non-empty rendering.
* Methods use explicit state passing: every operation returns a `CallOutcome`
  recording the Python return value (`result`), the list of HTTP GETs issued during
  the call (`issued`), and the client object as it stands after the call (`post`).
  No method body in the source assigns to `self`, so `post` is the unchanged object.
-/

/-- JSON-compatible values, the result of parsing a response body. -/
inductive Json where
  | null : Json
  | bool (b : Bool) : Json
  | num (n : Int) : Json
  | str (s : String) : Json
  | arr (elems : List Json) : Json
  | obj (fields : List (String × Json)) : Json

/-- A query-parameter value as placed in the Python params dict: the source uses
string values (`name`, `q`) and int values (`app_id`, `count`). -/
inductive PValue where
  | str (s : String) : PValue
  | int (n : Int) : PValue
deriving DecidableEq

/-- The params dict passed to `requests.get`, in insertion order. -/
abbrev Params := List (String × PValue)

/-- One HTTP GET as issued by `requests.get(url, params=params, timeout=30)`. -/
structure HttpGet where
  url : String
  params : Option Params
  timeout : Nat
deriving DecidableEq

/-- A final HTTP response: status code and the JSON-decode outcome of its body. -/
structure HttpResponse where
  status : Nat
  body : Option Json

/-- What the HTTP stack does with one GET: raise a `RequestException` (connection
error, timeout, …) or deliver a final response. -/
inductive TransportResult where
  | exn (msg : String) : TransportResult
  | resp (r : HttpResponse) : TransportResult

/-- The environment: how the network answers each GET request. -/
def Transport := HttpGet → TransportResult

/-- Python exceptions relevant to the client.  `requestException` covers the whole
`requests.exceptions.RequestException` hierarchy (which, for requests ≥ 2.27,
includes `HTTPError` and `JSONDecodeError`); `otherException` is any exception the
`except requests.exceptions.RequestException` clause would not catch. -/
inductive PyExn where
  | requestException (msg : String) : PyExn
  | otherException (msg : String) : PyExn

/-- The client object: `self.base_url` and `self.api_base` as set by `__init__`. -/
structure SteamMarketApiClient where
  base_url : String
  api_base : String
deriving DecidableEq

/-- Outcome of one client method call under explicit state passing: the Python
return value (or an escaped exception), the GET requests issued, and the client
object after the call. -/
structure CallOutcome where
  result : Except PyExn Json
  issued : List HttpGet
  post : SteamMarketApiClient

/-!  Embedding of `urllib.parse.quote` (with its default safe set containing the slash) and of the
percent-decoding performed by `urllib.parse.unquote`.  Python strings convert to
UTF-8 bytes before quoting; bytes are modelled as natural numbers below 256. -/

/-- Bytes `urllib.parse.quote` leaves unescaped with the default safe argument:
ASCII letters, digits, `_.-~` (the always-safe set) and `/`. -/
def isSafeByte (b : Nat) : Bool :=
  (65 ≤ b && b ≤ 90) || (97 ≤ b && b ≤ 122) || (48 ≤ b && b ≤ 57) ||
    b == 95 || b == 46 || b == 45 || b == 126 || b == 47

/-- Uppercase hexadecimal digit for `n < 16`, as a byte (bytes for 0-9 and A-F);
`quote` renders escapes as `%XX` with uppercase hex. -/
def hexDigitU (n : Nat) : Nat :=
  if n < 10 then 48 + n else 55 + n

/-- One byte of `quote` output: the byte itself when safe, else `%` and two
uppercase hex digits (byte 37 is `%`). -/
def pctQuoteByte (b : Nat) : List Nat :=
  if isSafeByte b then [b] else [37, hexDigitU (b / 16), hexDigitU (b % 16)]

/-- `quote_from_bytes`: escape every byte of the input. -/
def pctQuote (bs : List Nat) : List Nat :=
  bs.flatMap pctQuoteByte

/-- Whether a byte is an ASCII hex digit (`unquote` accepts both cases). -/
def isHexDigit (b : Nat) : Bool :=
  (48 ≤ b && b ≤ 57) || (65 ≤ b && b ≤ 70) || (97 ≤ b && b ≤ 102)

/-- Numeric value of an ASCII hex digit byte. -/
def hexVal (b : Nat) : Nat :=
  if b ≤ 57 then b - 48 else if b ≤ 70 then b - 55 else b - 87

/-- Percent-decoding at the byte level, as `urllib.parse.unquote` does between
UTF-8 decoding: each `%` followed by two hex digits becomes one byte; a `%` not
followed by two hex digits is kept literally. -/
def pctUnquote : List Nat → List Nat
  | [] => []
  | b :: rest =>
    if b = 37 then
      match rest with
      | h :: l :: rest2 =>
        if isHexDigit h && isHexDigit l then
          (hexVal h * 16 + hexVal l) :: pctUnquote rest2
        else
          37 :: pctUnquote (h :: l :: rest2)
      | [h] => 37 :: pctUnquote [h]
      | [] => 37 :: pctUnquote []
    else
      b :: pctUnquote rest
termination_by bs => bs.length

/-- UTF-8 encoding of one Unicode scalar value (given as a `Nat`). -/
def utf8EncodeNat (n : Nat) : List Nat :=
  if n < 128 then [n]
  else if n < 2048 then [192 + n / 64, 128 + n % 64]
  else if n < 65536 then [224 + n / 4096, 128 + n / 64 % 64, 128 + n % 64]
  else [240 + n / 262144, 128 + n / 4096 % 64, 128 + n / 64 % 64, 128 + n % 64]

/-- Whether a byte is a UTF-8 continuation byte (`10xxxxxx`). -/
def isContByte (b : Nat) : Bool :=
  128 ≤ b && b < 192

/-- UTF-8 decoding of a byte sequence into Unicode scalar values; `none` when the
sequence is not well-formed (where the Python decoder used by `unquote`, running in replace mode,
would substitute U+FFFD instead). -/
def utf8DecodeNats : List Nat → Option (List Nat)
  | [] => some []
  | b :: bs =>
    if b < 128 then
      (utf8DecodeNats bs).map (fun ns => b :: ns)
    else if b < 194 then
      none
    else
      match bs with
      | [] => none
      | b1 :: bs1 =>
        if b < 224 then
          if isContByte b1 then
            (utf8DecodeNats bs1).map (fun ns => ((b - 192) * 64 + (b1 - 128)) :: ns)
          else none
        else
          match bs1 with
          | [] => none
          | b2 :: bs2 =>
            if b < 240 then
              if isContByte b1 && isContByte b2 then
                (utf8DecodeNats bs2).map
                  (fun ns => ((b - 224) * 4096 + (b1 - 128) * 64 + (b2 - 128)) :: ns)
              else none
            else
              match bs2 with
              | [] => none
              | b3 :: bs3 =>
                if isContByte b1 && isContByte b2 && isContByte b3 then
                  (utf8DecodeNats bs3).map
                    (fun ns =>
                      ((b - 240) * 262144 + (b1 - 128) * 4096 + (b2 - 128) * 64 +
                        (b3 - 128)) :: ns)
                else none

/-- UTF-8 bytes of a Lean/Python string. -/
def strBytes (s : String) : List Nat :=
  s.data.flatMap (fun c => utf8EncodeNat c.toNat)

/-- Rebuild a string from byte values (used for `quote` output, which is ASCII). -/
def asciiStr (bs : List Nat) : String :=
  ⟨bs.map Char.ofNat⟩

/-- `urllib.parse.quote` applied to `s` with the default safe argument: percent-encode the UTF-8
bytes of `s`. -/
def quote (s : String) : String :=
  asciiStr (pctQuote (strBytes s))

/-- Percent-decoding of a (quoted, hence ASCII) string: undo the `%XX` escapes at
the byte level, then UTF-8-decode; `none` on ill-formed UTF-8, where the Python `unquote` would substitute replacement characters. -/
def unquote (s : String) : Option String :=
  (utf8DecodeNats (pctUnquote (s.data.map Char.toNat))).map
    (fun ns => ⟨ns.map Char.ofNat⟩)

/-!  The client class. -/

/-- Python `rstrip` with a slash argument: remove all trailing `/` characters. -/
def rstripSlash (s : String) : String :=
  ⟨(s.data.reverse.dropWhile (fun c => c = '/')).reverse⟩

/-- Default constructor argument: `base_url = "http://localhost:8000"`. -/
def defaultBaseUrl : String := "http://localhost:8000"

/-- `__init__`: store the trimmed base URL and derive the API root
appending the fixed segment `/api/v1`. -/
def SteamMarketApiClient.init (base_url : String) : SteamMarketApiClient :=
  { base_url := rstripSlash base_url
    api_base := rstripSlash base_url ++ "/api/v1" }

/-- A client constructed with the defaulted argument. -/
def SteamMarketApiClient.initDefault : SteamMarketApiClient :=
  SteamMarketApiClient.init defaultBaseUrl

/-- The GET request `_make_request` hands to
`requests.get`: the url is `self.api_base` followed by the endpoint, with the params
dict and `timeout=30`. -/
def mkGet (c : SteamMarketApiClient) (endpoint : String) (params : Option Params) : HttpGet :=
  { url := c.api_base ++ endpoint, params := params, timeout := 30 }

/-- `requests.get` under the transport oracle: either raises a `RequestException`
or yields the final response. -/
def requests_get (t : Transport) (g : HttpGet) : Except PyExn HttpResponse :=
  match t g with
  | TransportResult.exn m => Except.error (PyExn.requestException m)
  | TransportResult.resp r => Except.ok r

/-- Rendering of the `HTTPError` message for an error status (the library text is
`"<status> Client Error: …"` / `"<status> Server Error: …"`; only its non-emptiness
matters to the client contract). -/
def httpErrorMsg (status : Nat) : String :=
  toString status ++ (if status < 500 then " Client Error" else " Server Error")

/-- Rendering of the `JSONDecodeError` message raised by `Response.json()` on a
body that is not valid JSON. -/
def jsonDecodeMsg : String := "Expecting value: line 1 column 1 (char 0)"

/-- `Response.raise_for_status()`: raises `HTTPError` (a `RequestException`) for
status codes 400–599, returns normally otherwise. -/
def raise_for_status (r : HttpResponse) : Except PyExn Unit :=
  if 400 ≤ r.status ∧ r.status < 600 then
    Except.error (PyExn.requestException (httpErrorMsg r.status))
  else
    Except.ok ()

/-- `Response.json()`: the parsed body, or a `JSONDecodeError` (a
`RequestException` for requests ≥ 2.27) when the body is not valid JSON. -/
def response_json (r : HttpResponse) : Except PyExn Json :=
  match r.body with
  | some j => Except.ok j
  | none => Except.error (PyExn.requestException jsonDecodeMsg)

/-- The failure dictionary built by the `except` clause of `_make_request`. -/
def failureJson (endpoint : String) (msg : String) : Json :=
  Json.obj
    [("success", Json.bool false),
     ("error", Json.str ("Request failed: " ++ msg)),
     ("endpoint", Json.str endpoint)]

/-- `_make_request(endpoint, params)`: issue one GET at the API root
followed by the endpoint, with `timeout=30`; on success return the parsed JSON
body; catch any `RequestException` e and return the failure dictionary with keys
success (False), error (the text Request failed: followed by the message of e)
and endpoint; any other exception escapes. -/
def SteamMarketApiClient.make_request (c : SteamMarketApiClient) (t : Transport)
    (endpoint : String) (params : Option Params) : CallOutcome :=
  let g := mkGet c endpoint params
  let attempt : Except PyExn Json :=
    match requests_get t g with
    | Except.error e => Except.error e
    | Except.ok r =>
      match raise_for_status r with
      | Except.error e => Except.error e
      | Except.ok _ => response_json r
  let result : Except PyExn Json :=
    match attempt with
    | Except.ok j => Except.ok j
    | Except.error (PyExn.requestException m) =>
      Except.ok (failureJson endpoint m)
    | Except.error e => Except.error e
  { result := result, issued := [g], post := c }

/-- `test_connection()`. -/
def SteamMarketApiClient.test_connection (c : SteamMarketApiClient) (t : Transport) :
    CallOutcome :=
  c.make_request t "/test" none

/-- `get_status()`. -/
def SteamMarketApiClient.get_status (c : SteamMarketApiClient) (t : Transport) :
    CallOutcome :=
  c.make_request t "/steam/status" none

/-- `find_app_by_name(app_name)`. -/
def SteamMarketApiClient.find_app_by_name (c : SteamMarketApiClient) (t : Transport)
    (app_name : String) : CallOutcome :=
  c.make_request t "/steam/find-app" (some [("name", PValue.str app_name)])

/-- `get_app_details(app_id)`: the id is embedded in the path by an
f-string, rendered with the Python `str` conversion. -/
def SteamMarketApiClient.get_app_details (c : SteamMarketApiClient) (t : Transport)
    (app_id : Int) : CallOutcome :=
  c.make_request t ("/steam/app/" ++ toString app_id) none

/-- `get_supported_apps()`. -/
def SteamMarketApiClient.get_supported_apps (c : SteamMarketApiClient) (t : Transport) :
    CallOutcome :=
  c.make_request t "/steam/apps" none

/-- `get_item_price(item_name, app_id=730)`: percent-encode the item name into the
path; send `app_id` only when it differs from the default 730. -/
def SteamMarketApiClient.get_item_price (c : SteamMarketApiClient) (t : Transport)
    (item_name : String) (app_id : Int) : CallOutcome :=
  let encoded_name := quote item_name
  let endpoint := "/steam/item/" ++ encoded_name
  let params : Option Params :=
    if app_id ≠ 730 then some [("app_id", PValue.int app_id)] else none
  c.make_request t endpoint params

/-- The client-side clamp `min(count, 50)` applied by `search_items`. -/
def clampCount (count : Int) : Int := min count 50

/-- `search_items(query, app_id=730, count=10)`: always sends `q`, `app_id` and the
clamped `count`. -/
def SteamMarketApiClient.search_items (c : SteamMarketApiClient) (t : Transport)
    (query : String) (app_id : Int) (count : Int) : CallOutcome :=
  let params : Params :=
    [("q", PValue.str query),
     ("app_id", PValue.int app_id),
     ("count", PValue.int (clampCount count))]
  c.make_request t "/steam/search" (some params)

/-- `get_popular_items(app_id=730)`: send `app_id` only when it differs from 730. -/
def SteamMarketApiClient.get_popular_items (c : SteamMarketApiClient) (t : Transport)
    (app_id : Int) : CallOutcome :=
  let params : Option Params :=
    if app_id ≠ 730 then some [("app_id", PValue.int app_id)] else none
  c.make_request t "/steam/popular" params

/-!  Derived predicates used by the specification statements. -/

/-- Whether the transport outcome of one GET is a failure the specified error
contract is about: a raised `RequestException`, or a response whose status makes
`raise_for_status` raise (400–599). -/
def transportFails : TransportResult → Bool
  | TransportResult.exn _ => true
  | TransportResult.resp r => decide (400 ≤ r.status) && decide (r.status < 600)

/-- The call returned normally with exactly the failure dictionary for `endpoint`:
keys `success: false`, a non-empty `error` string, `endpoint` — and nothing else. -/
def resultIsExactFailure (o : CallOutcome) (endpoint : String) : Prop :=
  ∃ msg : String,
    o.result =
      Except.ok (Json.obj
        [("success", Json.bool false),
         ("error", Json.str msg),
         ("endpoint", Json.str endpoint)]) ∧
    msg ≠ ""


/-!  Concrete fixtures for witnesses and counterexamples. -/

/-- A transport in which every request raises a connection error. -/
def tConnRefused : Transport := fun _ => TransportResult.exn "Connection refused"

/-- A transport answering every request with status 304 (not a 2xx status) and a
valid JSON body. -/
def t304 : Transport :=
  fun _ => TransportResult.resp ⟨304, some (Json.obj [("ok", Json.bool true)])⟩

/-- A transport answering every request with status 200 and a body that is not
valid JSON. -/
def t200bad : Transport := fun _ => TransportResult.resp ⟨200, none⟩

/-- The sample success body from the specification. -/
def testBody : Json := Json.obj [("success", Json.bool true), ("name", Json.str "Test")]

/-- A transport answering every request with status 200 and the sample body. -/
def t200ok : Transport := fun _ => TransportResult.resp ⟨200, some testBody⟩

/-!  Helper lemmas. -/

/-- A string with the failure-message prefix is never empty. -/
theorem request_failed_msg_ne_empty (m : String) : "Request failed: " ++ m ≠ "" := by
  intro h
  have hl := congrArg String.length h
  rw [String.length_append] at hl
  have h16 : ("Request failed: " : String).length = 16 := rfl
  have h0 : ("" : String).length = 0 := rfl
  omega

/-- Under a transport failure (raised `RequestException` or an error status
400–599), `_make_request` returns exactly the failure dictionary. -/
theorem make_request_transportFails (c : SteamMarketApiClient) (t : Transport)
    (endpoint : String) (params : Option Params)
    (h : transportFails (t (mkGet c endpoint params)) = true) :
    resultIsExactFailure (c.make_request t endpoint params) endpoint := by
  unfold resultIsExactFailure
  cases ht : t (mkGet c endpoint params) with
  | exn m =>
    refine ⟨"Request failed: " ++ m, ?_, request_failed_msg_ne_empty m⟩
    simp [SteamMarketApiClient.make_request, requests_get, ht, failureJson]
  | resp r =>
    rw [ht] at h
    simp only [transportFails, Bool.and_eq_true, decide_eq_true_eq] at h
    refine ⟨"Request failed: " ++ httpErrorMsg r.status, ?_,
      request_failed_msg_ne_empty _⟩
    simp [SteamMarketApiClient.make_request, requests_get, ht, raise_for_status, h,
      failureJson]

/-- Hex digits produced by `hexDigitU` are accepted and decoded back by
`isHexDigit`/`hexVal`. -/
theorem hexDigitU_roundtrip : ∀ n < 16, isHexDigit (hexDigitU n) = true ∧
    hexVal (hexDigitU n) = n := by decide

/-- Percent-decoding undoes the quoting of a single byte, whatever follows. -/
theorem pctUnquote_pctQuoteByte (b : Nat) (hb : b < 256) (rest : List Nat) :
    pctUnquote (pctQuoteByte b ++ rest) = b :: pctUnquote rest := by
  by_cases hs : isSafeByte b = true
  · have hb37 : ¬ (b = 37) := by
      intro e; subst e; exact absurd hs (by decide)
    rw [pctQuoteByte, if_pos hs, List.cons_append, List.nil_append,
      pctUnquote.eq_def]
    simp [hb37]
  · obtain ⟨hh1, hh2⟩ := hexDigitU_roundtrip (b / 16) (by omega)
    obtain ⟨hl1, hl2⟩ := hexDigitU_roundtrip (b % 16) (by omega)
    rw [pctQuoteByte, if_neg hs]
    rw [show ([37, hexDigitU (b / 16), hexDigitU (b % 16)] ++ rest : List Nat)
        = 37 :: hexDigitU (b / 16) :: hexDigitU (b % 16) :: rest by simp]
    rw [pctUnquote.eq_def]
    simp [hh1, hl1, hh2, hl2]
    omega

/-- Percent-decoding undoes percent-quoting on any byte sequence. -/
theorem pctUnquote_pctQuote (bs : List Nat) (h : ∀ b ∈ bs, b < 256) :
    pctUnquote (pctQuote bs) = bs := by
  induction bs with
  | nil => simp [pctQuote, pctUnquote]
  | cons b bs ih =>
    rw [pctQuote, List.flatMap_cons, pctUnquote_pctQuoteByte b (h b (by simp))]
    exact congrArg (b :: ·) (ih (fun x hx => h x (by simp [hx])))

/-- `Char.ofNat` recovers a scalar value below the surrogate range. -/
theorem char_toNat_ofNat (b : Nat) (hb : b < 55296) : (Char.ofNat b).toNat = b := by
  rw [Char.ofNat, dif_pos (Or.inl hb)]
  rfl

/-- Every character codes a scalar value below 1114112. -/
theorem char_toNat_lt (c : Char) : c.toNat < 1114112 := by
  rcases c.valid with h | ⟨_, h⟩
  · exact Nat.lt_trans h (by decide)
  · exact h

/-- The UTF-8 encoding of a scalar value consists of bytes. -/
theorem utf8EncodeNat_bytes_lt (n : Nat) (h : n < 1114112) :
    ∀ b ∈ utf8EncodeNat n, b < 256 := by
  intro b hb
  unfold utf8EncodeNat at hb
  split_ifs at hb <;> simp at hb <;> omega

/-- UTF-8 decoding consumes one encoded character and continues. -/
theorem utf8DecodeNats_encode (n : Nat) (h : n < 1114112) (rest : List Nat) :
    utf8DecodeNats (utf8EncodeNat n ++ rest) =
      (utf8DecodeNats rest).map (fun ns => n :: ns) := by
  rcases Nat.lt_or_ge n 128 with h1 | h1
  · rw [utf8EncodeNat, if_pos h1, List.cons_append, List.nil_append,
      utf8DecodeNats.eq_def]
    simp only [h1, ite_true, if_true]
  rcases Nat.lt_or_ge n 2048 with h2 | h2
  · have g0 : ¬ (n < 128) := by omega
    have g1 : ¬ (192 + n / 64 < 128) := by omega
    have g2 : ¬ (192 + n / 64 < 194) := by omega
    have g3 : 192 + n / 64 < 224 := by omega
    have g4 : isContByte (128 + n % 64) = true := by
      simp only [isContByte, Bool.and_eq_true, decide_eq_true_eq]; omega
    have hv : (192 + n / 64 - 192) * 64 + (128 + n % 64 - 128) = n := by omega
    rw [utf8EncodeNat, if_neg g0, if_pos h2]
    rw [show ([192 + n / 64, 128 + n % 64] ++ rest : List Nat)
        = (192 + n / 64) :: (128 + n % 64) :: rest by simp]
    rw [utf8DecodeNats.eq_def]
    simp only [g1, g2, g3, g4, ite_true, ite_false, if_true, if_false, hv]
  rcases Nat.lt_or_ge n 65536 with h3 | h3
  · have g0 : ¬ (n < 128) := by omega
    have g0b : ¬ (n < 2048) := by omega
    have g1 : ¬ (224 + n / 4096 < 128) := by omega
    have g2 : ¬ (224 + n / 4096 < 194) := by omega
    have g3 : ¬ (224 + n / 4096 < 224) := by omega
    have g4 : 224 + n / 4096 < 240 := by omega
    have g5 : isContByte (128 + n / 64 % 64) = true := by
      simp only [isContByte, Bool.and_eq_true, decide_eq_true_eq]; omega
    have g6 : isContByte (128 + n % 64) = true := by
      simp only [isContByte, Bool.and_eq_true, decide_eq_true_eq]; omega
    have hv : (224 + n / 4096 - 224) * 4096 + (128 + n / 64 % 64 - 128) * 64 +
        (128 + n % 64 - 128) = n := by omega
    rw [utf8EncodeNat, if_neg g0, if_neg g0b, if_pos h3]
    rw [show ([224 + n / 4096, 128 + n / 64 % 64, 128 + n % 64] ++ rest : List Nat)
        = (224 + n / 4096) :: (128 + n / 64 % 64) :: (128 + n % 64) :: rest by simp]
    rw [utf8DecodeNats.eq_def]
    simp only [g1, g2, g3, g4, g5, g6, ite_true, ite_false, if_true, if_false,
      Bool.and_self, Bool.true_and, Bool.and_true, hv]
  · have g0 : ¬ (n < 128) := by omega
    have g0b : ¬ (n < 2048) := by omega
    have g0c : ¬ (n < 65536) := by omega
    have g1 : ¬ (240 + n / 262144 < 128) := by omega
    have g2 : ¬ (240 + n / 262144 < 194) := by omega
    have g3 : ¬ (240 + n / 262144 < 224) := by omega
    have g4 : ¬ (240 + n / 262144 < 240) := by omega
    have g5 : isContByte (128 + n / 4096 % 64) = true := by
      simp only [isContByte, Bool.and_eq_true, decide_eq_true_eq]; omega
    have g6 : isContByte (128 + n / 64 % 64) = true := by
      simp only [isContByte, Bool.and_eq_true, decide_eq_true_eq]; omega
    have g7 : isContByte (128 + n % 64) = true := by
      simp only [isContByte, Bool.and_eq_true, decide_eq_true_eq]; omega
    have hv : (240 + n / 262144 - 240) * 262144 + (128 + n / 4096 % 64 - 128) * 4096 +
        (128 + n / 64 % 64 - 128) * 64 + (128 + n % 64 - 128) = n := by omega
    rw [utf8EncodeNat, if_neg g0, if_neg g0b, if_neg g0c]
    rw [show ([240 + n / 262144, 128 + n / 4096 % 64, 128 + n / 64 % 64,
          128 + n % 64] ++ rest : List Nat)
        = (240 + n / 262144) :: (128 + n / 4096 % 64) :: (128 + n / 64 % 64) ::
          (128 + n % 64) :: rest by simp]
    rw [utf8DecodeNats.eq_def]
    simp only [g1, g2, g3, g4, g5, g6, g7, ite_true, ite_false, if_true, if_false,
      Bool.and_self, Bool.true_and, Bool.and_true, hv]

/-- Decoding the concatenated UTF-8 encodings of a character list recovers the
scalar values. -/
theorem utf8DecodeNats_strBytes (cs : List Char) :
    utf8DecodeNats (cs.flatMap (fun c => utf8EncodeNat c.toNat)) =
      some (cs.map Char.toNat) := by
  induction cs with
  | nil => simp [utf8DecodeNats]
  | cons c cs ih =>
    rw [List.flatMap_cons, utf8DecodeNats_encode c.toNat (char_toNat_lt c), ih]
    rfl

/-- All bytes of a UTF-8 encoded string are below 256. -/
theorem strBytes_lt (s : String) : ∀ b ∈ strBytes s, b < 256 := by
  intro b hb
  rw [strBytes, List.mem_flatMap] at hb
  obtain ⟨c, _, hc⟩ := hb
  exact utf8EncodeNat_bytes_lt c.toNat (char_toNat_lt c) b hc

/-- Quoting bytes yields bytes (in fact printable ASCII). -/
theorem pctQuote_lt (bs : List Nat) (h : ∀ b ∈ bs, b < 256) :
    ∀ b ∈ pctQuote bs, b < 256 := by
  intro b hb
  rw [pctQuote, List.mem_flatMap] at hb
  obtain ⟨a, ha, hab⟩ := hb
  have ha256 := h a ha
  rw [pctQuoteByte] at hab
  split_ifs at hab <;> simp at hab <;>
    first
    | omega
    | (rcases hab with hab | hab | hab <;> subst hab <;>
        first
        | omega
        | (rw [hexDigitU]; split_ifs <;> omega))

/-- Converting small scalar values to characters and back is the identity. -/
theorem map_toNat_map_ofNat (bs : List Nat) (h : ∀ b ∈ bs, b < 256) :
    (bs.map Char.ofNat).map Char.toNat = bs := by
  induction bs with
  | nil => rfl
  | cons b bs ih =>
    rw [List.map_cons, List.map_cons,
      char_toNat_ofNat b (by have := h b (by simp); omega),
      ih (fun x hx => h x (by simp [hx]))]

/-- C5 ingredient: percent-decoding inverts `quote` on every string. -/
theorem unquote_quote (s : String) : unquote (quote s) = some s := by
  rw [unquote, quote, asciiStr]
  rw [show (String.mk ((pctQuote (strBytes s)).map Char.ofNat)).data
      = (pctQuote (strBytes s)).map Char.ofNat from rfl]
  rw [map_toNat_map_ofNat _ (pctQuote_lt _ (strBytes_lt s))]
  rw [pctUnquote_pctQuote _ (strBytes_lt s)]
  rw [strBytes, utf8DecodeNats_strBytes s.data]
  rw [show Option.map (fun ns : List Nat => (⟨ns.map Char.ofNat⟩ : String))
        (some (s.data.map Char.toNat))
      = some ⟨(s.data.map Char.toNat).map Char.ofNat⟩ from rfl]
  rw [List.map_map]
  rw [show (Char.ofNat ∘ Char.toNat) = id from funext (fun c => Char.ofNat_toNat c)]
  rw [List.map_id]

/-!  Claim theorems. -/

/-- C1 (counterexample): the claim as stated is false.  A non-2xx status is
named by the claim as a transport-level failure, yet on status 304 with a valid
JSON body the code returns that parsed body — not the failure shape with keys
success/error/endpoint — because `raise_for_status` raises only for 400–599. -/
theorem c1_non2xx_counterexample :
    (¬ (200 ≤ (304 : Nat) ∧ (304 : Nat) < 300)) ∧
    (SteamMarketApiClient.initDefault.test_connection t304).result
        = Except.ok (Json.obj [("ok", Json.bool true)]) ∧
    ¬ resultIsExactFailure (SteamMarketApiClient.initDefault.test_connection t304)
        "/test" := by
  refine ⟨by omega, rfl, ?_⟩
  rintro ⟨msg, hmsg, -⟩
  have h1 : (SteamMarketApiClient.initDefault.test_connection t304).result
      = Except.ok (Json.obj [("ok", Json.bool true)]) := rfl
  rw [h1] at hmsg
  simp only [Except.ok.injEq] at hmsg
  simp at hmsg

/-- C1 (amended): for every convenience operation and every transport-level
failure the underlying GET can raise (connection error, timeout, or an HTTP
error status 400–599 — the statuses `raise_for_status` raises for; other
non-2xx statuses such as 304 are not converted), the operation returns normally
and the returned mapping has exactly the keys success (false), a non-empty
error string, and endpoint equal to the requested path suffix. -/
theorem c1_transport_failure_uniform_shape
    (c : SteamMarketApiClient) (t : Transport)
    (app_name item_name query : String)
    (app_id idPrice idSearch idPop count : Int)
    (hfail : ∀ g, transportFails (t g) = true) :
    resultIsExactFailure (c.test_connection t) "/test" ∧
    resultIsExactFailure (c.get_status t) "/steam/status" ∧
    resultIsExactFailure (c.find_app_by_name t app_name) "/steam/find-app" ∧
    resultIsExactFailure (c.get_app_details t app_id)
      ("/steam/app/" ++ toString app_id) ∧
    resultIsExactFailure (c.get_supported_apps t) "/steam/apps" ∧
    resultIsExactFailure (c.get_item_price t item_name idPrice)
      ("/steam/item/" ++ quote item_name) ∧
    resultIsExactFailure (c.search_items t query idSearch count) "/steam/search" ∧
    resultIsExactFailure (c.get_popular_items t idPop) "/steam/popular" := by
  refine ⟨?_, ?_, ?_, ?_, ?_, ?_, ?_, ?_⟩ <;>
    exact make_request_transportFails _ _ _ _ (hfail _)

/-- C1 (witness): the amended theorem applied to the default client and a
transport refusing every connection. -/
theorem c1_transport_failure_uniform_shape_witness :
    resultIsExactFailure (SteamMarketApiClient.initDefault.test_connection
      tConnRefused) "/test" ∧
    resultIsExactFailure (SteamMarketApiClient.initDefault.get_status
      tConnRefused) "/steam/status" ∧
    resultIsExactFailure (SteamMarketApiClient.initDefault.find_app_by_name
      tConnRefused "Counter-Strike") "/steam/find-app" ∧
    resultIsExactFailure (SteamMarketApiClient.initDefault.get_app_details
      tConnRefused 730) ("/steam/app/" ++ toString (730 : Int)) ∧
    resultIsExactFailure (SteamMarketApiClient.initDefault.get_supported_apps
      tConnRefused) "/steam/apps" ∧
    resultIsExactFailure (SteamMarketApiClient.initDefault.get_item_price
      tConnRefused "AK-47 | Redline (Field-Tested)" 730)
      ("/steam/item/" ++ quote "AK-47 | Redline (Field-Tested)") ∧
    resultIsExactFailure (SteamMarketApiClient.initDefault.search_items
      tConnRefused "AK-47" 730 3) "/steam/search" ∧
    resultIsExactFailure (SteamMarketApiClient.initDefault.get_popular_items
      tConnRefused 730) "/steam/popular" :=
  c1_transport_failure_uniform_shape SteamMarketApiClient.initDefault tConnRefused
    "Counter-Strike" "AK-47 | Redline (Field-Tested)" "AK-47" 730 730 730 730 3
    (fun _ => rfl)

/-- C2: when the GET yields a 2xx response whose body is not valid JSON, the
decode exception is caught inside `_make_request` and the call returns the
uniform failure shape instead of raising. -/
theorem c2_malformed_json_caught
    (c : SteamMarketApiClient) (t : Transport) (endpoint : String)
    (params : Option Params) (s : Nat)
    (hresp : t (mkGet c endpoint params) = TransportResult.resp ⟨s, none⟩)
    (h2xx : 200 ≤ s ∧ s < 300) :
    (c.make_request t endpoint params).result
        = Except.ok (failureJson endpoint jsonDecodeMsg) ∧
    resultIsExactFailure (c.make_request t endpoint params) endpoint := by
  have hne : ¬ (400 ≤ s ∧ s < 600) := by omega
  constructor
  · simp [SteamMarketApiClient.make_request, requests_get, hresp, raise_for_status,
      hne, response_json]
  · refine ⟨"Request failed: " ++ jsonDecodeMsg, ?_, request_failed_msg_ne_empty _⟩
    simp [SteamMarketApiClient.make_request, requests_get, hresp, raise_for_status,
      hne, response_json, failureJson]

/-- C2 (witness): a 200 response with an undecodable body on the default client. -/
theorem c2_malformed_json_caught_witness :
    (SteamMarketApiClient.initDefault.make_request t200bad "/test" none).result
        = Except.ok (failureJson "/test" jsonDecodeMsg) ∧
    resultIsExactFailure
      (SteamMarketApiClient.initDefault.make_request t200bad "/test" none)
      "/test" :=
  c2_malformed_json_caught SteamMarketApiClient.initDefault t200bad "/test" none
    200 rfl (by omega)

/-- C3: for every count above 50, `search_items` transmits count = 50, and the
clamp is idempotent on every integer. -/
theorem c3_count_clamped_at_50
    (c : SteamMarketApiClient) (t : Transport) (query : String)
    (app_id count : Int) (hcount : 50 < count) :
    (c.search_items t query app_id count).issued
        = [mkGet c "/steam/search"
            (some [("q", PValue.str query), ("app_id", PValue.int app_id),
              ("count", PValue.int 50)])] ∧
    ∀ k : Int, clampCount (clampCount k) = clampCount k := by
  constructor
  · show [mkGet c "/steam/search"
        (some [("q", PValue.str query), ("app_id", PValue.int app_id),
          ("count", PValue.int (clampCount count))])] = _
    rw [show clampCount count = 50 by rw [clampCount]; omega]
  · intro k
    simp only [clampCount]
    omega

/-- C3 (witness): count 51 is transmitted as 50. -/
theorem c3_count_clamped_at_50_witness :
    (50 : Int) < 51 ∧
    ((SteamMarketApiClient.initDefault.search_items tConnRefused "AK-47" 730 51).issued
        = [mkGet SteamMarketApiClient.initDefault "/steam/search"
            (some [("q", PValue.str "AK-47"), ("app_id", PValue.int 730),
              ("count", PValue.int 50)])] ∧
      ∀ k : Int, clampCount (clampCount k) = clampCount k) :=
  ⟨by omega,
    c3_count_clamped_at_50 SteamMarketApiClient.initDefault tConnRefused "AK-47"
      730 51 (by omega)⟩

/-- C4: `get_item_price` and `get_popular_items` omit the app_id parameter
entirely when it equals 730 and transmit it with the input value otherwise. -/
theorem c4_default_app_id_omitted
    (c : SteamMarketApiClient) (t : Transport) (item_name : String)
    (app_id : Int) :
    (app_id = 730 →
      (c.get_item_price t item_name app_id).issued
          = [mkGet c ("/steam/item/" ++ quote item_name) none] ∧
      (c.get_popular_items t app_id).issued
          = [mkGet c "/steam/popular" none]) ∧
    (app_id ≠ 730 →
      (c.get_item_price t item_name app_id).issued
          = [mkGet c ("/steam/item/" ++ quote item_name)
              (some [("app_id", PValue.int app_id)])] ∧
      (c.get_popular_items t app_id).issued
          = [mkGet c "/steam/popular"
              (some [("app_id", PValue.int app_id)])]) := by
  constructor
  · intro h730
    subst h730
    exact ⟨rfl, rfl⟩
  · intro hne
    have hp : (if app_id ≠ 730 then some [("app_id", PValue.int app_id)]
        else (none : Option Params)) = some [("app_id", PValue.int app_id)] :=
      if_pos hne
    constructor
    · show [mkGet c ("/steam/item/" ++ quote item_name)
          (if app_id ≠ 730 then some [("app_id", PValue.int app_id)] else none)]
          = _
      rw [hp]
    · show [mkGet c "/steam/popular"
          (if app_id ≠ 730 then some [("app_id", PValue.int app_id)] else none)]
          = _
      rw [hp]

/-- C4 (witness): concrete calls at the default 730 (omitted) and at 570
(transmitted). -/
theorem c4_default_app_id_omitted_witness :
    ((SteamMarketApiClient.initDefault.get_item_price tConnRefused "AK-47" 730).issued
        = [mkGet SteamMarketApiClient.initDefault ("/steam/item/" ++ quote "AK-47")
            none] ∧
      (SteamMarketApiClient.initDefault.get_popular_items tConnRefused 730).issued
        = [mkGet SteamMarketApiClient.initDefault "/steam/popular" none]) ∧
    ((SteamMarketApiClient.initDefault.get_item_price tConnRefused "AK-47" 570).issued
        = [mkGet SteamMarketApiClient.initDefault ("/steam/item/" ++ quote "AK-47")
            (some [("app_id", PValue.int 570)])] ∧
      (SteamMarketApiClient.initDefault.get_popular_items tConnRefused 570).issued
        = [mkGet SteamMarketApiClient.initDefault "/steam/popular"
            (some [("app_id", PValue.int 570)])]) :=
  ⟨(c4_default_app_id_omitted SteamMarketApiClient.initDefault tConnRefused
      "AK-47" 730).1 rfl,
    (c4_default_app_id_omitted SteamMarketApiClient.initDefault tConnRefused
      "AK-47" 570).2 (by omega)⟩

/-- C5: `get_item_price` inserts the percent-encoding of the item name into the
request path, and percent-decoding inverts the encoding on every string. -/
theorem c5_item_name_percent_encoding_roundtrip
    (c : SteamMarketApiClient) (t : Transport) (item_name : String)
    (app_id : Int) :
    ((c.get_item_price t item_name app_id).issued.map HttpGet.url)
        = [c.api_base ++ ("/steam/item/" ++ quote item_name)] ∧
    unquote (quote "AK-47 | Redline (Field-Tested)")
        = some "AK-47 | Redline (Field-Tested)" ∧
    ∀ s : String, unquote (quote s) = some s := by
  exact ⟨rfl, unquote_quote _, unquote_quote⟩

/-- C6: a 2xx response with a valid JSON body is returned verbatim, with no
fields added, removed or rewritten. -/
theorem c6_success_body_returned_verbatim
    (c : SteamMarketApiClient) (t : Transport) (endpoint : String)
    (params : Option Params) (s : Nat) (j : Json)
    (hresp : t (mkGet c endpoint params) = TransportResult.resp ⟨s, some j⟩)
    (h2xx : 200 ≤ s ∧ s < 300) :
    (c.make_request t endpoint params).result = Except.ok j := by
  have hne : ¬ (400 ≤ s ∧ s < 600) := by omega
  simp [SteamMarketApiClient.make_request, requests_get, hresp, raise_for_status,
    hne, response_json]

/-- C6 (witness): the sample body from the specification is returned unchanged. -/
theorem c6_success_body_returned_verbatim_witness :
    (SteamMarketApiClient.initDefault.make_request t200ok "/test" none).result
        = Except.ok testBody :=
  c6_success_body_returned_verbatim SteamMarketApiClient.initDefault t200ok
    "/test" none 200 testBody rfl (by omega)

/-- C7: every convenience operation issues exactly one GET, with timeout 30, at
the documented path template with exactly the documented query parameters. -/
theorem c7_single_get_documented_endpoints
    (c : SteamMarketApiClient) (t : Transport)
    (app_name item_name query : String)
    (app_id idPrice idSearch idPop count : Int) :
    (c.test_connection t).issued
        = [HttpGet.mk (c.api_base ++ "/test") none 30] ∧
    (c.get_status t).issued
        = [HttpGet.mk (c.api_base ++ "/steam/status") none 30] ∧
    (c.find_app_by_name t app_name).issued
        = [HttpGet.mk (c.api_base ++ "/steam/find-app")
            (some [("name", PValue.str app_name)]) 30] ∧
    (c.get_app_details t app_id).issued
        = [HttpGet.mk (c.api_base ++ ("/steam/app/" ++ toString app_id))
            none 30] ∧
    (c.get_supported_apps t).issued
        = [HttpGet.mk (c.api_base ++ "/steam/apps") none 30] ∧
    (c.get_item_price t item_name idPrice).issued
        = [HttpGet.mk (c.api_base ++ ("/steam/item/" ++ quote item_name))
            (if idPrice ≠ 730 then some [("app_id", PValue.int idPrice)]
              else none) 30] ∧
    (c.search_items t query idSearch count).issued
        = [HttpGet.mk (c.api_base ++ "/steam/search")
            (some [("q", PValue.str query), ("app_id", PValue.int idSearch),
              ("count", PValue.int (clampCount count))]) 30] ∧
    (c.get_popular_items t idPop).issued
        = [HttpGet.mk (c.api_base ++ "/steam/popular")
            (if idPop ≠ 730 then some [("app_id", PValue.int idPop)]
              else none) 30] :=
  ⟨rfl, rfl, rfl, rfl, rfl, rfl, rfl, rfl⟩

/-- C8: the constructor stores the trailing-slash-trimmed base URL, derives the
API root by appending /api/v1, defaults to the local loopback address on port
8000, and no operation ever changes the configuration. -/
theorem c8_config_derived_and_immutable
    (base : String) (c : SteamMarketApiClient) (t : Transport)
    (app_name item_name query : String)
    (app_id idPrice idSearch idPop count : Int) :
    (SteamMarketApiClient.init base).base_url = rstripSlash base ∧
    (SteamMarketApiClient.init base).api_base = rstripSlash base ++ "/api/v1" ∧
    SteamMarketApiClient.initDefault
        = SteamMarketApiClient.init "http://localhost:8000" ∧
    (c.test_connection t).post = c ∧
    (c.get_status t).post = c ∧
    (c.find_app_by_name t app_name).post = c ∧
    (c.get_app_details t app_id).post = c ∧
    (c.get_supported_apps t).post = c ∧
    (c.get_item_price t item_name idPrice).post = c ∧
    (c.search_items t query idSearch count).post = c ∧
    (c.get_popular_items t idPop).post = c :=
  ⟨rfl, rfl, rfl, rfl, rfl, rfl, rfl, rfl, rfl, rfl, rfl⟩

/-- C9: `search_items` transmits app_id explicitly for every input — including
the default 730, which it never omits. -/
theorem c9_search_items_always_sends_app_id
    (c : SteamMarketApiClient) (t : Transport) (query : String)
    (app_id count : Int) :
    (c.search_items t query app_id count).issued
        = [mkGet c "/steam/search"
            (some [("q", PValue.str query), ("app_id", PValue.int app_id),
              ("count", PValue.int (clampCount count))])] ∧
    (c.search_items t query 730 count).issued
        = [mkGet c "/steam/search"
            (some [("q", PValue.str query), ("app_id", PValue.int 730),
              ("count", PValue.int (clampCount count))])] :=
  ⟨rfl, rfl⟩

/-- C10: the clamp is one-sided — any count at most 50, zero and negative
values included, is transmitted unchanged. -/
theorem c10_count_clamp_one_sided
    (c : SteamMarketApiClient) (t : Transport) (query : String)
    (app_id count : Int) (hcount : count ≤ 50) :
    (c.search_items t query app_id count).issued
        = [mkGet c "/steam/search"
            (some [("q", PValue.str query), ("app_id", PValue.int app_id),
              ("count", PValue.int count)])] := by
  show [mkGet c "/steam/search"
      (some [("q", PValue.str query), ("app_id", PValue.int app_id),
        ("count", PValue.int (clampCount count))])] = _
  rw [show clampCount count = count by rw [clampCount]; omega]

/-- C10 (witness): a negative count is transmitted unchanged. -/
theorem c10_count_clamp_one_sided_witness :
    (-5 : Int) ≤ 50 ∧
    (SteamMarketApiClient.initDefault.search_items tConnRefused "AK-47" 730
        (-5)).issued
      = [mkGet SteamMarketApiClient.initDefault "/steam/search"
          (some [("q", PValue.str "AK-47"), ("app_id", PValue.int 730),
            ("count", PValue.int (-5))])] :=
  ⟨by omega,
    c10_count_clamp_one_sided SteamMarketApiClient.initDefault tConnRefused
      "AK-47" 730 (-5) (by omega)⟩
